import Mathlib

/-
Verification of the extralit-hf-space job pipeline against its specification.

The Python sources are shallowly embedded: text is `List Char`, byte payloads
are `List Nat`, and the external extraction engine (an out-of-scope
collaborator) is an explicit oracle argument.  Functions that the Python code
runs in an unbounded `while` loop are embedded with an explicit fuel
parameter, so that both terminating and non-terminating behaviour can be
reasoned about.
-/

namespace Extralit

/-- Python `str.isspace` / `\s` for the ASCII whitespace characters used by
`str.strip` and the `re` module. -/
def isPySpace (c : Char) : Bool :=
  c = ' ' || c = '\t' || c = '\n' || c = '\x0b' || c = '\x0c' || c = '\r'

/-- Python `str.strip()`: drop whitespace from both ends. -/
def pyStrip (s : List Char) : List Char :=
  ((s.dropWhile isPySpace).reverse.dropWhile isPySpace).reverse

/-- Python slice `s[a:b]` for `0 ≤ a ≤ b` (out-of-range bounds clamp). -/
def pySlice (s : List Char) (a b : Nat) : List Char :=
  (s.take b).drop a

/-- Helper for `pyRfindSpace`: scan the `n` indices `a, a+1, …, a+n-1` from the
top down and return the first (hence highest) index holding `' '`, else `-1`. -/
def pyRfindSpaceAux (s : List Char) (a : Nat) : Nat → Int
  | 0 => -1
  | n + 1 =>
    if s.get? (a + n) = some ' ' then ((a + n : Nat) : Int)
    else pyRfindSpaceAux s a n

/-- Python `s.rfind(' ', a, b)`: the highest index `i` with `a ≤ i < min b s.length`
and `s[i] = ' '`, or `-1` when there is none. -/
def pyRfindSpace (s : List Char) (a b : Nat) : Int :=
  pyRfindSpaceAux s a (min b s.length - a)

/-- One chunk produced by `_chunk_by_tokens` (`src/jobs/extraction_jobs.py`).
The constant `chunk_type = "token_based"` metadata key is carried by the type
itself. -/
structure TokenChunk where
  text : List Char
  start_char : Nat
  end_char : Nat
  chunk_index : Nat
  chunk_size : Nat
  filename : String
  deriving Repr, DecidableEq

/-- The `end` position computed by one iteration of the `_chunk_by_tokens`
loop: tentative `end = start + chunk_size`; if that lies strictly inside the
text, move back to the last space strictly after `start` when one exists. -/
def tokenEnd (text : List Char) (chunk_size start : Nat) : Nat :=
  let e0 := start + chunk_size
  if e0 < text.length then
    let last_space := pyRfindSpace text start e0
    if (start : Int) < last_space then last_space.toNat else e0
  else e0

/-- The next `start` computed at the bottom of the `_chunk_by_tokens` loop:
`start = end - chunk_overlap`, and `if start <= 0: start = end`.  (In the
Python source `start` is an `int` that may go negative before the snap; over
`Nat`, `end - overlap ≤ 0` is exactly `end ≤ overlap`.) -/
def tokenNextStart (text : List Char) (chunk_size chunk_overlap start : Nat) : Nat :=
  let e := tokenEnd text chunk_size start
  if e ≤ chunk_overlap then e else e - chunk_overlap

/-- The `while start < len(text)` loop of `_chunk_by_tokens`, with explicit
fuel: each unit of fuel permits one loop iteration, so a run of the Python
loop that terminates agrees with this function for every sufficiently large
fuel, and a non-terminating run emits `fuel` chunks for every fuel. -/
def chunkByTokensAux (text : List Char) (filename : String)
    (chunk_size chunk_overlap : Nat) : Nat → Nat → Nat → List TokenChunk
  | 0, _, _ => []
  | fuel + 1, start, chunk_index =>
    if start < text.length then
      let e := tokenEnd text chunk_size start
      let chunk_text := pyStrip (pySlice text start e)
      let next := tokenNextStart text chunk_size chunk_overlap start
      if chunk_text.isEmpty then
        chunkByTokensAux text filename chunk_size chunk_overlap fuel next chunk_index
      else
        { text := chunk_text, start_char := start, end_char := e,
          chunk_index := chunk_index, chunk_size := chunk_text.length,
          filename := filename } ::
          chunkByTokensAux text filename chunk_size chunk_overlap fuel next (chunk_index + 1)
    else []

/-- The error raised by `_chunk_by_tokens` when `chunk_size <= chunk_overlap`
(a Python `ValueError`, called `ChunkConfigError` in the spec). -/
inductive ChunkError where
  | chunkConfig (msg : String)
  | unknownStrategy (msg : String)
  deriving Repr, DecidableEq

/-- `_chunk_by_tokens(markdown, chunk_size, chunk_overlap, filename)` from
`src/jobs/extraction_jobs.py`: reject `chunk_size <= chunk_overlap`, strip
the input, then run the sliding-window loop. -/
def chunk_by_tokens (markdown : List Char) (chunk_size chunk_overlap : Nat)
    (filename : String) (fuel : Nat) : Except ChunkError (List TokenChunk) :=
  if chunk_size ≤ chunk_overlap then
    .error (.chunkConfig "Chunk size must be greater than chunk overlap")
  else
    .ok (chunkByTokensAux (pyStrip markdown) filename chunk_size chunk_overlap fuel 0 0)

/-- Split a list at line boundaries, keeping an (initially empty) trailing
piece; helper for `splitLines`.  Covers the `\n`, `\r` and `\r\n` boundaries
of Python `str.splitlines` (the exotic unicode boundaries never occur in the
ASCII documents considered here). -/
def splitAtLineBreaks : List Char → List (List Char)
  | [] => [[]]
  | '\r' :: '\n' :: rest => [] :: splitAtLineBreaks rest
  | '\r' :: rest => [] :: splitAtLineBreaks rest
  | '\n' :: rest => [] :: splitAtLineBreaks rest
  | c :: rest =>
    match splitAtLineBreaks rest with
    | [] => [[c]]
    | l :: ls => (c :: l) :: ls

/-- Python `str.splitlines()`: like `splitAtLineBreaks`, but the empty string
yields no lines and a trailing line boundary produces no trailing empty line. -/
def splitLines (s : List Char) : List (List Char) :=
  if s.isEmpty then []
  else
    match s.getLast? with
    | some '\n' => (splitAtLineBreaks s).dropLast
    | some '\r' => (splitAtLineBreaks s).dropLast
    | _ => splitAtLineBreaks s

/-- Python `re.match(r"^(#+)\s+(.+)", line)`: `some (level, title)` when the
line starts with one or more `#` markers followed by at least one whitespace
character and at least one further character.  `\s+` is greedy, so `title`
starts after the whole whitespace run — except that when only whitespace
follows the markers, the regex engine backtracks one step and the last
whitespace character itself becomes the (whitespace) title. -/
def headerMatch (line : List Char) : Option (Nat × List Char) :=
  let hashes := line.takeWhile (fun c => c = '#')
  if hashes.isEmpty then none
  else
    let rest := line.drop hashes.length
    let ws := rest.takeWhile isPySpace
    if ws.isEmpty then none
    else
      let tail := rest.drop ws.length
      if tail.isEmpty then
        if 2 ≤ ws.length then some (hashes.length, rest.drop (ws.length - 1)) else none
      else some (hashes.length, tail)

/-- One chunk produced by `_chunk_by_headers`.  The constant
`chunk_type = "header_based"` metadata key is carried by the type itself. -/
structure HeaderChunk where
  text : List Char
  header : Option (List Char)
  start_line : Nat
  end_line : Nat
  header_level : Option Nat
  filename : String
  deriving Repr, DecidableEq

/-- Python truthiness of the `current_header` variable (`None` and the empty
string are falsy). -/
def pyTruthy (o : Option (List Char)) : Bool :=
  match o with
  | some l => !l.isEmpty
  | none => false

/-- The `for i, line in enumerate(lines)` loop of `_chunk_by_headers`,
followed by the final flush.  `total` is `len(lines)`, used by the final
flush's `end_line`.  Note two behaviours of the source preserved faithfully:
a chunk flushed when a new header line is met takes its `header_level` from
the NEW header's marker count (`header_match.group(1)`), and the final flush
hard-codes `header_level = None`. -/
def chunkByHeadersAux (filename : String) (min_length : Nat) (total : Nat) :
    List (Nat × List Char) → List (List Char) → Option (List Char) → Nat → List HeaderChunk
  | [], current_chunk, current_header, start_line =>
    if current_chunk.isEmpty then []
    else
      let text := pyStrip (List.intercalate ['\n'] current_chunk)
      if min_length ≤ text.length then
        [{ text := text, header := current_header, start_line := start_line,
           end_line := total - 1, header_level := none, filename := filename }]
      else []
  | (i, line) :: rest, current_chunk, current_header, start_line =>
    match headerMatch line with
    | some (lvl, title) =>
      let flushed :=
        if current_chunk.isEmpty then []
        else
          let text := pyStrip (List.intercalate ['\n'] current_chunk)
          if min_length ≤ text.length then
            [{ text := text, header := current_header, start_line := start_line,
               end_line := i - 1,
               header_level := if pyTruthy current_header then some lvl else none,
               filename := filename }]
          else []
      flushed ++ chunkByHeadersAux filename min_length total rest [line] (some title) i
    | none =>
      chunkByHeadersAux filename min_length total rest (current_chunk ++ [line])
        current_header start_line

/-- `_chunk_by_headers(markdown, filename, min_length=100)` from
`src/jobs/extraction_jobs.py`. -/
def chunk_by_headers (markdown : List Char) (filename : String)
    (min_length : Nat := 100) : List HeaderChunk :=
  let lines := splitLines markdown
  chunkByHeadersAux filename min_length lines.length lines.enum [] none 0

/-- A JSON-like value, used for the loosely-typed metadata dictionaries the
jobs pass around. -/
inductive JVal where
  | s (v : String)
  | n (v : Int)
  | b (v : Bool)
  | obj (fields : List (String × JVal))

/-- A metadata dictionary (`Dict[str, Any]` in the source). -/
abbrev Meta := List (String × JVal)

/-- Python dict key assignment `m[k] = v` (overwrite or append). -/
def setKey (m : Meta) (k : String) (v : JVal) : Meta :=
  (List.filter (fun kv => kv.1 ≠ k) m) ++ [(k, v)]

/-- The extraction configuration accepted by `ExtractionConfig(**config_dict)`
in `src/extract.py`; its contents belong to the out-of-scope extraction
adapter, so they stay opaque here. -/
structure ExtractionConfig where
  fields : List (String × JVal)

/-- Outcome of the external call `extract_markdown_with_hierarchy`: a normal
return, a raised `ValueError`, or any other raised exception.  The adapter is
an out-of-scope collaborator, so the outcome is supplied as an oracle. -/
inductive ExtractOutcome where
  | ok (markdown : List Char) (metadata : Meta)
  | valueError (msg : String)
  | exc (msg : String)

/-- Oracles for the two external calls made by `extract_pdf_markdown_job`:
the extraction engine and the `ExtractionConfig(**config_dict)` constructor
(whose failure is caught and replaced by the default configuration). -/
structure ExtractEnv where
  extract : List Nat → String → Option ExtractionConfig → ExtractOutcome
  parseConfig : List (String × JVal) → Except String ExtractionConfig

/-- A chunk inside a chunking job result: either header-based or token-based. -/
inductive Chunk where
  | header (c : HeaderChunk)
  | token (c : TokenChunk)

/-- The result dictionary returned by the extraction jobs.  An `Option` field
is `none` exactly when the corresponding key is absent from the returned
Python dict.  The wall-clock `processing_time` key is not modelled. -/
structure JobResult where
  success : Bool
  markdown : Option (List Char)
  metadata : Option Meta
  chunks : Option (List Chunk)
  chunk_strategy : Option String
  total_chunks : Option Nat
  filename : String
  error : Option String

/-- The failure dictionary built by the `except` handlers of the jobs. -/
def failResult (msg : String) (filename : String) : JobResult :=
  { success := false, markdown := none, metadata := none, chunks := none,
    chunk_strategy := none, total_chunks := none, filename := filename,
    error := some msg }

/-- The configuration object `extract_pdf_markdown_job` passes to the
extraction call: `None` when no (or a falsy) `config_dict` was given, the
parsed `ExtractionConfig(**config_dict)` when parsing succeeds, and the
default `None` again when the constructor raises (that exception is caught
and only logged). -/
def jobConfig (env : ExtractEnv) (config_dict : Option (List (String × JVal))) :
    Option ExtractionConfig :=
  match config_dict with
  | some cd =>
    if cd.isEmpty then none
    else
      match env.parseConfig cd with
      | .ok c => some c
      | .error _ => none
  | none => none

/-- `extract_pdf_markdown_job(pdf_bytes, filename, config_dict,
analysis_metadata)` from `src/jobs/extraction_jobs.py`.  The Python function
catches `ValueError` and `Exception`, so it returns a dictionary on every
input and every extraction outcome; totality of this embedding is the
no-propagated-exception behaviour. -/
def extract_pdf_markdown_job (env : ExtractEnv) (pdf_bytes : List Nat)
    (filename : String) (config_dict : Option (List (String × JVal)))
    (analysis_metadata : Option Meta) : JobResult :=
  if pdf_bytes.isEmpty then
    failResult ("Invalid input for " ++ filename ++ ": PDF bytes cannot be empty") filename
  else if filename.isEmpty then
    failResult ("Invalid input for " ++ filename ++ ": Filename cannot be empty") filename
  else
    match env.extract pdf_bytes filename (jobConfig env config_dict) with
    | .ok markdown metadata =>
      let metadata :=
        match analysis_metadata with
        | some am => if am.isEmpty then metadata else setKey metadata "analysis_results" (.obj am)
        | none => metadata
      { success := true, markdown := some markdown, metadata := some metadata,
        chunks := none, chunk_strategy := none, total_chunks := none,
        filename := filename, error := none }
    | .valueError msg =>
      failResult ("Invalid input for " ++ filename ++ ": " ++ msg) filename
    | .exc msg =>
      failResult ("Extraction failed for " ++ filename ++ ": " ++ msg) filename

/-- `extract_pdf_with_chunking_job(...)` from `src/jobs/extraction_jobs.py`:
extract first (returning that result unchanged on failure), then chunk; a
`ValueError` raised by the chunkers, or an unknown strategy, is caught by the
outer handler and converted into a failure dictionary. -/
def extract_pdf_with_chunking_job (env : ExtractEnv) (pdf_bytes : List Nat)
    (filename : String) (chunk_strategy : String) (chunk_size chunk_overlap : Nat)
    (config_dict : Option (List (String × JVal))) (analysis_metadata : Option Meta)
    (fuel : Nat) : JobResult :=
  let er := extract_pdf_markdown_job env pdf_bytes filename config_dict analysis_metadata
  if er.success = false then er
  else
    let markdown := er.markdown.getD []
    let chunksE : Except String (List Chunk) :=
      if chunk_strategy = "header" then
        .ok ((chunk_by_headers markdown filename).map .header)
      else if chunk_strategy = "token" then
        match chunk_by_tokens markdown chunk_size chunk_overlap filename fuel with
        | .ok cs => .ok (cs.map .token)
        | .error (.chunkConfig m) => .error m
        | .error (.unknownStrategy m) => .error m
      else .error ("Unknown chunk strategy: " ++ chunk_strategy)
    match chunksE with
    | .ok cs =>
      { er with chunks := some cs, chunk_strategy := some chunk_strategy,
                total_chunks := some cs.length }
    | .error m =>
      failResult ("Extraction with chunking failed for " ++ filename ++ ": " ++ m) filename

/-- Queue names from `src/redis_connection.py`. -/
def PDF_QUEUE : String := "pdf_queue"

def EXTRACTION_QUEUE : String := "extraction"

def HIGH_PRIORITY_QUEUE : String := "high_priority"

def LOW_PRIORITY_QUEUE : String := "low_priority"

/-- Python `str.lower()` (ASCII case folding; the queue-name comparisons only
involve ASCII strings). -/
def pyLower (s : String) : String := String.mk (s.data.map Char.toLower)

/-- The `ValueError` raised by `get_queue_by_priority` (the spec's
`InvalidPriority`). -/
inductive RouteError where
  | invalidPriority (msg : String)
  deriving Repr, DecidableEq

/-- `get_queue_by_priority(priority)` from `src/redis_connection.py`, mapping
a priority label to the name of the queue it returns (`get_queue` itself only
materialises the queue object for that name). -/
def get_queue_by_priority (priority : String) : Except RouteError String :=
  let priority_lower := pyLower priority
  if priority_lower = "high" then .ok HIGH_PRIORITY_QUEUE
  else if priority_lower = "normal" then .ok PDF_QUEUE
  else if priority_lower = "low" then .ok LOW_PRIORITY_QUEUE
  else
    .error (.invalidPriority ("Unknown priority level: " ++ priority ++
      ". Must be high, normal, or low"))

/-- RQ job states as observed by `get_job_status` in `src/app.py`. -/
inductive JobState where
  | queued
  | started
  | finished
  | failed
  deriving Repr, DecidableEq

/-- The dictionary a finished job stored as its result, as read back by
`get_job_status` (`result.get("success", False)` makes a missing `success`
key the same as `False`). -/
structure StoredResult where
  success : Bool
  markdown : Option (List Char)
  metadata : Option Meta
  filename : Option String
  error : Option String

/-- The parsed `ExtractionResponse` built from a stored result; its contents
are irrelevant to the status query's control flow. -/
structure ParsedExtraction where
  markdown : List Char
  filename : Option String

/-- A job fetched from the broker: its status, its stored result dictionary
(`none` models both an absent and a falsy/empty stored result, matching the
`job.is_finished and job.result` truthiness test), and `exc_info` for failed
jobs. -/
structure FetchedJob where
  status : JobState
  result : Option StoredResult
  exc_info : Option String

/-- The response assembled by `get_job_status` (timestamps omitted). -/
structure StatusResponse where
  job_id : String
  status : JobState
  error : Option String
  result : Option ParsedExtraction

/-- `get_job_status(job_id)` from `src/app.py`, given the fetched job and an
oracle `parseResult` for the `PDFMetadata(**result["metadata"])` /
`ExtractionResponse(...)` construction, which may raise (its exception is
caught and reported as a parse problem while `status` stays untouched). -/
def get_job_status (job_id : String) (job : FetchedJob)
    (parseResult : StoredResult → Except String ParsedExtraction) : StatusResponse :=
  let base : StatusResponse := { job_id := job_id, status := job.status,
                                 error := none, result := none }
  let withFail :=
    if job.status = .failed then
      { base with error := some (job.exc_info.getD "Job failed without error details") }
    else base
  match job.result with
  | some res =>
    if job.status = .finished then
      if res.success then
        match parseResult res with
        | .ok pr => { withFail with result := some pr }
        | .error e => { withFail with error := some ("Failed to parse job result: " ++ e) }
      else { withFail with error := some (res.error.getD "Job completed with errors") }
    else withFail
  | none => withFail

/-- One per-file record of a batch job. -/
structure FileOutcome where
  index : Nat
  filename : String
  success : Bool
  result : Option JobResult
  error : Option String

/-- The aggregate returned by a batch job. -/
structure BatchResult where
  batch_id : String
  total_files : Nat
  successful : Nat
  failed : Nat
  outcomes : List FileOutcome

/-- Modelled from the spec: `batch_extract_pdfs_job` is enqueued by name in
`src/app.py` (`enqueue_batch_extraction_job`) but its definition is not among
the repository sources; modelled from spec §4.6 Batch Orchestrator: process
the files strictly in order, run the single-document pipeline
(`extract_pdf_markdown_job`) on each, record `{index, filename, success,
result|error}` per file — a failure is recorded and counted, never aborting
the remaining files — and aggregate total/successful/failed counts with the
outcomes in original order.  Totality of this embedding is the
batch-call-does-not-raise behaviour. -/
def batch_extract_pdfs_job (env : ExtractEnv) (pdf_files : List (List Nat × String))
    (batch_id : String) (config_dict : Option (List (String × JVal)))
    (analysis_metadata : Option Meta) : BatchResult :=
  let outcomes := pdf_files.enum.map (fun p =>
    let i := p.1
    let bytes := p.2.1
    let fname := p.2.2
    let r := extract_pdf_markdown_job env bytes fname config_dict analysis_metadata
    if r.success then
      { index := i, filename := fname, success := true, result := some r, error := none }
    else
      { index := i, filename := fname, success := false, result := none,
        error := some (r.error.getD "unknown error") })
  { batch_id := batch_id,
    total_files := pdf_files.length,
    successful := (outcomes.filter (fun o => o.success)).length,
    failed := (outcomes.filter (fun o => !o.success)).length,
    outcomes := outcomes }

/-! Concrete inputs used by witnesses and counterexamples. -/

/-- A 36-character text (12 `a`s, one space, 23 `b`s) on which the token
chunker with `chunk_size = 10`, `chunk_overlap = 10` below `chunk_size` gets
stuck: from `start = 7` the word-boundary search keeps returning `end = 12`,
so `start = end - overlap = 7` again, and the `start <= 0` snap never fires. -/
def exStall : List Char := List.replicate 12 'a' ++ [' '] ++ List.replicate 23 'b'

/-- A 120-character whitespace-free input for the token chunker. -/
def ex120 : List Char := List.replicate 120 'a'

/-- First chunk of `ex120` with `chunk_size = 50`, `chunk_overlap = 10`. -/
def c120_0 : TokenChunk :=
  { text := List.replicate 50 'a', start_char := 0, end_char := 50,
    chunk_index := 0, chunk_size := 50, filename := "doc.pdf" }

/-- Second chunk of `ex120` with `chunk_size = 50`, `chunk_overlap = 10`. -/
def c120_1 : TokenChunk :=
  { text := List.replicate 50 'a', start_char := 40, end_char := 90,
    chunk_index := 1, chunk_size := 50, filename := "doc.pdf" }

/-- Third chunk of `ex120` with `chunk_size = 50`, `chunk_overlap = 10`. -/
def c120_2 : TokenChunk :=
  { text := List.replicate 40 'a', start_char := 80, end_char := 130,
    chunk_index := 2, chunk_size := 40, filename := "doc.pdf" }

/-- A document made of the single header line `# Title` and 150 characters of
body text. -/
def exHeaderDoc : List Char := "# Title".toList ++ ['\n'] ++ List.replicate 150 'a'

/-- The one chunk the header chunker emits for `exHeaderDoc`: the whole
document, under header `Title`, with `header_level = None` (the final flush
hard-codes `None`). -/
def exHeaderChunk : HeaderChunk :=
  { text := "# Title".toList ++ ['\n'] ++ List.replicate 150 'a',
    header := some "Title".toList, start_line := 0, end_line := 1,
    header_level := none, filename := "doc.pdf" }

/-- A concrete environment whose extraction always succeeds, for witnesses. -/
def demoEnv : ExtractEnv :=
  { extract := fun _ _ _ => .ok ['x'] [], parseConfig := fun _ => .error "opaque" }

/-- A concrete stored result whose `success` flag is set, for witnesses. -/
def demoStored : StoredResult :=
  { success := true, markdown := some ['x'], metadata := some [],
    filename := some "a.pdf", error := none }

/-- A concrete fetched job that finished with `demoStored`, for witnesses. -/
def demoFetched : FetchedJob :=
  { status := .finished, result := some demoStored, exc_info := none }

/-- A result parser that always fails, modelling a stored result that cannot
be interpreted in the expected shape. -/
def demoBadParse : StoredResult → Except String ParsedExtraction :=
  fun _ => .error "bad metadata"

/-- The single chunk the token chunker emits for the 2-character text `hi`
with `chunk_size = 5`, `chunk_overlap = 1`. -/
def cHi : TokenChunk :=
  { text := ['h', 'i'], start_char := 0, end_char := 5, chunk_index := 0,
    chunk_size := 2, filename := "a.pdf" }

/-! Helper lemmas. -/

/-- One iteration of the token-chunker loop on `exStall` from `start = 7`:
the chunk `text[7:12]` is emitted and the loop returns to `start = 7`. -/
theorem stall_step (fuel idx : Nat) :
    chunkByTokensAux exStall "f" 10 5 (fuel + 1) 7 idx =
      { text := List.replicate 5 'a', start_char := 7, end_char := 12,
        chunk_index := idx, chunk_size := 5, filename := "f" } ::
        chunkByTokensAux exStall "f" 10 5 fuel 7 (idx + 1) := rfl

/-- From `start = 7` on `exStall`, every unit of fuel emits exactly one more
chunk: the Python loop never terminates and its output grows without bound. -/
theorem stall_length (fuel : Nat) :
    ∀ idx, (chunkByTokensAux exStall "f" 10 5 fuel 7 idx).length = fuel := by
  induction fuel with
  | zero => intro idx; rfl
  | succ n ih =>
    intro idx
    rw [stall_step n idx]
    simp only [List.length_cons, ih (idx + 1)]

/-- The token-chunker loop on `ex120` stops once `start = 120`. -/
theorem tok120_stop (fuel idx : Nat) :
    chunkByTokensAux ex120 "doc.pdf" 50 10 fuel 120 idx = [] := by
  cases fuel <;> rfl

/-- The first three iterations of the token-chunker loop on `ex120`. -/
theorem tok120_steps (k : Nat) :
    chunkByTokensAux ex120 "doc.pdf" 50 10 (k + 3) 0 0 =
      c120_0 :: c120_1 :: c120_2 :: chunkByTokensAux ex120 "doc.pdf" 50 10 k 120 3 := rfl

/-! Claims. -/

/-- Claim C1: the claim states that whenever `end - overlap` does not
strictly exceed the previous `start` the chunker forces `start = end`, so
that start positions strictly increase and `_chunk_by_tokens` terminates for
every `overlap < chunk_size`.  The code only forces `start = end` when
`end - overlap <= 0`; this theorem exhibits the failure on `exStall` with
`chunk_size = 10 > overlap = 5`: the start positions go `0, 5, 7, 7, 7, …`
(at `start = 7` the next start `7` does not exceed `7`, yet it is not forced
to `end = 12`), and the loop runs forever, emitting one chunk per iteration
(`fuel` iterations emit exactly `fuel` chunks, for every `fuel`). -/
theorem token_chunker_stall_no_progress :
    (5 : Nat) < 10 ∧
    pyStrip exStall = exStall ∧
    exStall.length = 36 ∧
    tokenNextStart exStall 10 5 0 = 5 ∧
    tokenNextStart exStall 10 5 5 = 7 ∧
    tokenNextStart exStall 10 5 7 = 7 ∧
    tokenEnd exStall 10 7 = 12 ∧
    (∀ fuel idx, (chunkByTokensAux exStall "f" 10 5 fuel 7 idx).length = fuel) :=
  ⟨by decide, by decide, by decide, by decide, by decide, by decide, by decide,
   fun fuel idx => stall_length fuel idx⟩

set_option maxRecDepth 8000 in
/-- Claim C2: for the document `# Title` plus 150 characters of body, the
header chunker emits exactly one chunk with header `Title` — but its
`header_level` metadata is `None`, not `1`: the final flush of
`_chunk_by_headers` hard-codes `header_level = None`. -/
theorem header_chunker_single_header_level_none :
    chunk_by_headers exHeaderDoc "doc.pdf" = [exHeaderChunk] ∧
    exHeaderChunk.header = some "Title".toList ∧
    exHeaderChunk.header_level = none := by
  refine ⟨by decide, rfl, rfl⟩

/-- Claim C5: with `chunk_size = 50` and `chunk_overlap = 10` over the
120-character whitespace-free `ex120`, the token chunker terminates (the
result is the same for every fuel from 3 on) with exactly 3 chunks, and both
consecutive pairs overlap by exactly 10 characters. -/
theorem token_chunker_120_three_chunks (fuel : Nat) (h : 3 ≤ fuel) :
    chunk_by_tokens ex120 50 10 "doc.pdf" fuel = .ok [c120_0, c120_1, c120_2] ∧
    c120_0.end_char - c120_1.start_char = 10 ∧
    c120_1.end_char - c120_2.start_char = 10 := by
  obtain ⟨k, rfl⟩ := Nat.exists_eq_add_of_le h
  refine ⟨?_, by decide, by decide⟩
  have hs : pyStrip ex120 = ex120 := by decide
  simp only [chunk_by_tokens, hs]
  rw [if_neg (by norm_num), show 3 + k = k + 3 from Nat.add_comm 3 k,
    tok120_steps k, tok120_stop k 3]

/-- Witness for C5 at `fuel = 3`. -/
theorem token_chunker_120_three_chunks_witness :
    chunk_by_tokens ex120 50 10 "doc.pdf" 3 = .ok [c120_0, c120_1, c120_2] :=
  (token_chunker_120_three_chunks 3 (by norm_num)).1

/-- Claim C7: `get_queue_by_priority` succeeds exactly for those priority
strings whose lower-casing is `high`, `normal` or `low`, maps each of the
three case-insensitively to its fixed lane (being a pure function, it returns
that same lane on every call), and fails with an invalid-priority error for
every other string. -/
theorem get_queue_by_priority_spec (priority : String) :
    ((∃ q, get_queue_by_priority priority = .ok q) ↔
      (pyLower priority = "high" ∨ pyLower priority = "normal" ∨
        pyLower priority = "low")) ∧
    (pyLower priority = "high" → get_queue_by_priority priority = .ok HIGH_PRIORITY_QUEUE) ∧
    (pyLower priority = "normal" → get_queue_by_priority priority = .ok PDF_QUEUE) ∧
    (pyLower priority = "low" → get_queue_by_priority priority = .ok LOW_PRIORITY_QUEUE) ∧
    (pyLower priority ≠ "high" → pyLower priority ≠ "normal" → pyLower priority ≠ "low" →
      get_queue_by_priority priority = .error (.invalidPriority
        ("Unknown priority level: " ++ priority ++ ". Must be high, normal, or low"))) := by
  unfold get_queue_by_priority
  by_cases h1 : pyLower priority = "high"
  · simp [h1]
  · by_cases h2 : pyLower priority = "normal"
    · simp [h1, h2]
    · by_cases h3 : pyLower priority = "low"
      · simp [h1, h2, h3]
      · simp [h1, h2, h3]

/-- Witness for C7 at the concrete priority `HIGH`. -/
theorem get_queue_by_priority_spec_witness :
    get_queue_by_priority "HIGH" = .ok HIGH_PRIORITY_QUEUE :=
  (get_queue_by_priority_spec "HIGH").2.1 (by decide)

/-- Claim C4: `_chunk_by_tokens` fails with the chunk-configuration error
exactly when `chunk_overlap ≥ chunk_size` (emitting no chunks — the error
carries none), and when extraction succeeded, `extract_pdf_with_chunking_job`
converts that failure into a returned dictionary with `success = False` and
an error message rather than raising. -/
theorem chunk_config_error_spec (markdown : List Char) (filename : String)
    (chunk_size chunk_overlap fuel : Nat) (env : ExtractEnv) (pdf_bytes : List Nat)
    (config_dict : Option (List (String × JVal))) (analysis_metadata : Option Meta)
    (hx : (extract_pdf_markdown_job env pdf_bytes filename config_dict
      analysis_metadata).success = true) :
    ((∃ e, chunk_by_tokens markdown chunk_size chunk_overlap filename fuel =
        .error (.chunkConfig e)) ↔ chunk_overlap ≥ chunk_size) ∧
    (chunk_overlap ≥ chunk_size →
      (extract_pdf_with_chunking_job env pdf_bytes filename "token" chunk_size
        chunk_overlap config_dict analysis_metadata fuel).success = false ∧
      (extract_pdf_with_chunking_job env pdf_bytes filename "token" chunk_size
        chunk_overlap config_dict analysis_metadata fuel).error =
        some ("Extraction with chunking failed for " ++ filename ++
          ": Chunk size must be greater than chunk overlap")) := by
  constructor
  · unfold chunk_by_tokens
    by_cases h : chunk_size ≤ chunk_overlap
    · simp [h, ge_iff_le]
    · simp [h, ge_iff_le]
  · intro hge
    have hcs : chunk_size ≤ chunk_overlap := hge
    unfold extract_pdf_with_chunking_job chunk_by_tokens
    simp [hx, hcs, failResult, String.append_assoc]

/-- Witness for C4 at `chunk_size = 10`, `chunk_overlap = 10`. -/
theorem chunk_config_error_spec_witness :
    ((∃ e, chunk_by_tokens ['m'] 10 10 "a.pdf" 1 = .error (.chunkConfig e)) ↔
      (10 : Nat) ≥ 10) ∧
    ((10 : Nat) ≥ 10 →
      (extract_pdf_with_chunking_job demoEnv [0] "a.pdf" "token" 10 10 none none 1).success
        = false ∧
      (extract_pdf_with_chunking_job demoEnv [0] "a.pdf" "token" 10 10 none none 1).error =
        some ("Extraction with chunking failed for " ++ "a.pdf" ++
          ": Chunk size must be greater than chunk overlap")) :=
  chunk_config_error_spec ['m'] "a.pdf" 10 10 1 demoEnv [0] none none rfl

/-- Claim C6: for every input (empty or not) and every outcome of the
extraction call — a normal return, a `ValueError`, or any other exception —
`extract_pdf_markdown_job` returns a result dictionary, either `success=True`
with the markdown or `success=False` with an error string; in particular an
extraction failure is always converted into a failure result.  The function
is total over all oracle outcomes, which is the never-propagates-an-exception
behaviour. -/
theorem markdown_job_never_raises (env : ExtractEnv) (pdf_bytes : List Nat)
    (filename : String) (config_dict : Option (List (String × JVal)))
    (analysis_metadata : Option Meta) :
    (((extract_pdf_markdown_job env pdf_bytes filename config_dict
        analysis_metadata).success = true ∧
      (extract_pdf_markdown_job env pdf_bytes filename config_dict
        analysis_metadata).markdown.isSome = true) ∨
     ((extract_pdf_markdown_job env pdf_bytes filename config_dict
        analysis_metadata).success = false ∧
      (extract_pdf_markdown_job env pdf_bytes filename config_dict
        analysis_metadata).error.isSome = true)) ∧
    (∀ msg, pdf_bytes.isEmpty = false → filename.isEmpty = false →
      env.extract pdf_bytes filename (jobConfig env config_dict) = .exc msg →
      (extract_pdf_markdown_job env pdf_bytes filename config_dict
        analysis_metadata).error =
        some ("Extraction failed for " ++ filename ++ ": " ++ msg)) := by
  constructor
  · unfold extract_pdf_markdown_job
    by_cases h1 : pdf_bytes.isEmpty
    · simp [h1, failResult]
    · by_cases h2 : filename.isEmpty
      · simp [h1, h2, failResult]
      · simp only [h1, h2, Bool.false_eq_true, if_false, reduceIte]
        cases hx : env.extract pdf_bytes filename (jobConfig env config_dict) with
        | ok md meta => left; simp
        | valueError m => right; simp [failResult]
        | exc m => right; simp [failResult]
  · intro msg h1 h2 hx
    unfold extract_pdf_markdown_job
    simp [h1, h2, hx, failResult]

/-- Witness for C6: a failing extraction on concrete inputs yields the
failure dictionary. -/
theorem markdown_job_never_raises_witness :
    ((((extract_pdf_markdown_job demoEnv [0] "a.pdf" none none).success = true ∧
       (extract_pdf_markdown_job demoEnv [0] "a.pdf" none none).markdown.isSome = true) ∨
      ((extract_pdf_markdown_job demoEnv [0] "a.pdf" none none).success = false ∧
       (extract_pdf_markdown_job demoEnv [0] "a.pdf" none none).error.isSome = true)) ∧
     (∀ msg, ([0] : List Nat).isEmpty = false → "a.pdf".isEmpty = false →
       demoEnv.extract [0] "a.pdf" (jobConfig demoEnv none) = .exc msg →
       (extract_pdf_markdown_job demoEnv [0] "a.pdf" none none).error =
         some ("Extraction failed for " ++ "a.pdf" ++ ": " ++ msg))) :=
  markdown_job_never_raises demoEnv [0] "a.pdf" none none

/-- Claim C9: the result dictionary of `extract_pdf_markdown_job` keeps the
result payload and the error mutually exclusive: on `success=True` it has
markdown and metadata and no error key, on `success=False` it has an error
key and no markdown key, and it never has both markdown and error. -/
theorem markdown_job_result_error_exclusive (env : ExtractEnv) (pdf_bytes : List Nat)
    (filename : String) (config_dict : Option (List (String × JVal)))
    (analysis_metadata : Option Meta) :
    ((extract_pdf_markdown_job env pdf_bytes filename config_dict
        analysis_metadata).success = true →
      (extract_pdf_markdown_job env pdf_bytes filename config_dict
        analysis_metadata).markdown.isSome = true ∧
      (extract_pdf_markdown_job env pdf_bytes filename config_dict
        analysis_metadata).metadata.isSome = true ∧
      (extract_pdf_markdown_job env pdf_bytes filename config_dict
        analysis_metadata).error = none) ∧
    ((extract_pdf_markdown_job env pdf_bytes filename config_dict
        analysis_metadata).success = false →
      (extract_pdf_markdown_job env pdf_bytes filename config_dict
        analysis_metadata).error.isSome = true ∧
      (extract_pdf_markdown_job env pdf_bytes filename config_dict
        analysis_metadata).markdown = none) ∧
    ¬((extract_pdf_markdown_job env pdf_bytes filename config_dict
        analysis_metadata).markdown.isSome = true ∧
      (extract_pdf_markdown_job env pdf_bytes filename config_dict
        analysis_metadata).error.isSome = true) := by
  unfold extract_pdf_markdown_job
  by_cases h1 : pdf_bytes.isEmpty
  · simp [h1, failResult]
  · by_cases h2 : filename.isEmpty
    · simp [h1, h2, failResult]
    · simp only [h1, h2, Bool.false_eq_true, if_false, reduceIte]
      cases hx : env.extract pdf_bytes filename (jobConfig env config_dict) with
      | ok md meta => simp
      | valueError m => simp [failResult]
      | exc m => simp [failResult]

/-- Witness for C9 at concrete inputs. -/
theorem markdown_job_result_error_exclusive_witness :
    (((extract_pdf_markdown_job demoEnv [0] "a.pdf" none none).success = true →
      (extract_pdf_markdown_job demoEnv [0] "a.pdf" none none).markdown.isSome = true ∧
      (extract_pdf_markdown_job demoEnv [0] "a.pdf" none none).metadata.isSome = true ∧
      (extract_pdf_markdown_job demoEnv [0] "a.pdf" none none).error = none) ∧
     ((extract_pdf_markdown_job demoEnv [0] "a.pdf" none none).success = false →
      (extract_pdf_markdown_job demoEnv [0] "a.pdf" none none).error.isSome = true ∧
      (extract_pdf_markdown_job demoEnv [0] "a.pdf" none none).markdown = none) ∧
     ¬((extract_pdf_markdown_job demoEnv [0] "a.pdf" none none).markdown.isSome = true ∧
       (extract_pdf_markdown_job demoEnv [0] "a.pdf" none none).error.isSome = true)) :=
  markdown_job_result_error_exclusive demoEnv [0] "a.pdf" none none

/-- Claim C8: when a job is Finished but its stored result (with the success
flag set) cannot be parsed into the expected response shape, `get_job_status`
returns a response that still carries the Finished status together with a
parse-problem error message and no result field; the query never downgrades
the status (the response status always equals the fetched status). -/
theorem finished_unparseable_keeps_status (job_id : String) (job : FetchedJob)
    (res : StoredResult) (parseResult : StoredResult → Except String ParsedExtraction)
    (e : String) (hst : job.status = .finished) (hres : job.result = some res)
    (hsucc : res.success = true) (hp : parseResult res = .error e) :
    (get_job_status job_id job parseResult).status = .finished ∧
    (get_job_status job_id job parseResult).error =
      some ("Failed to parse job result: " ++ e) ∧
    (get_job_status job_id job parseResult).result = none ∧
    (∀ parse2 : StoredResult → Except String ParsedExtraction,
      (get_job_status job_id job parse2).status = job.status) := by
  refine ⟨?_, ?_, ?_, ?_⟩
  · unfold get_job_status
    rw [hres]
    simp [hst, hsucc, hp]
  · unfold get_job_status
    rw [hres]
    simp [hst, hsucc, hp]
  · unfold get_job_status
    rw [hres]
    simp [hst, hsucc, hp]
  · intro parse2
    unfold get_job_status
    rcases job.result with _ | r
    · simp [hst]
    · cases hrs : r.success
      · simp [hst, hrs]
      · cases hpr : parse2 r
        · simp [hst, hrs, hpr]
        · simp [hst, hrs, hpr]

/-- Witness for C8 on a concrete finished job with an unparseable result. -/
theorem finished_unparseable_keeps_status_witness :
    (get_job_status "job-1" demoFetched demoBadParse).status = .finished ∧
    (get_job_status "job-1" demoFetched demoBadParse).error =
      some ("Failed to parse job result: " ++ "bad metadata") ∧
    (get_job_status "job-1" demoFetched demoBadParse).result = none ∧
    (∀ parse2 : StoredResult → Except String ParsedExtraction,
      (get_job_status "job-1" demoFetched parse2).status = demoFetched.status) :=
  finished_unparseable_keeps_status "job-1" demoFetched demoStored demoBadParse
    "bad metadata" rfl rfl rfl rfl

/-- Claim C3 (the batch job itself is absent from the sources and is modelled
from the spec in `batch_extract_pdfs_job`): a batch of 3 files whose middle
file has an empty payload — while the other two extract successfully —
reports successful=2 and failed=1, with per-file outcomes in original order
`0, 1, 2`, where outcome 1 carries an error and no result and outcomes 0 and
2 carry results and no error.  Totality of the embedding is the
batch-call-does-not-raise behaviour. -/
theorem batch_three_files_middle_empty (env : ExtractEnv) (b0 b2 : List Nat)
    (f0 f1 f2 batch_id : String) (config_dict : Option (List (String × JVal)))
    (analysis_metadata : Option Meta)
    (h0 : (extract_pdf_markdown_job env b0 f0 config_dict analysis_metadata).success = true)
    (h2 : (extract_pdf_markdown_job env b2 f2 config_dict analysis_metadata).success = true) :
    (batch_extract_pdfs_job env [(b0, f0), ([], f1), (b2, f2)] batch_id config_dict
      analysis_metadata).total_files = 3 ∧
    (batch_extract_pdfs_job env [(b0, f0), ([], f1), (b2, f2)] batch_id config_dict
      analysis_metadata).successful = 2 ∧
    (batch_extract_pdfs_job env [(b0, f0), ([], f1), (b2, f2)] batch_id config_dict
      analysis_metadata).failed = 1 ∧
    (batch_extract_pdfs_job env [(b0, f0), ([], f1), (b2, f2)] batch_id config_dict
      analysis_metadata).outcomes.map
        (fun o => (o.index, o.success, o.result.isSome, o.error.isSome)) =
      [(0, true, true, false), (1, false, false, true), (2, true, true, false)] := by
  have hmid : (extract_pdf_markdown_job env [] f1 config_dict
      analysis_metadata).success = false := by
    unfold extract_pdf_markdown_job failResult
    simp
  unfold batch_extract_pdfs_job
  simp [List.enum, List.enumFrom, h0, h2, hmid]

/-- Witness for C3 with a concrete always-succeeding extraction oracle. -/
theorem batch_three_files_middle_empty_witness :
    (batch_extract_pdfs_job demoEnv [([0], "a.pdf"), ([], "b.pdf"), ([1], "c.pdf")]
      "batch-1" none none).total_files = 3 ∧
    (batch_extract_pdfs_job demoEnv [([0], "a.pdf"), ([], "b.pdf"), ([1], "c.pdf")]
      "batch-1" none none).successful = 2 ∧
    (batch_extract_pdfs_job demoEnv [([0], "a.pdf"), ([], "b.pdf"), ([1], "c.pdf")]
      "batch-1" none none).failed = 1 ∧
    (batch_extract_pdfs_job demoEnv [([0], "a.pdf"), ([], "b.pdf"), ([1], "c.pdf")]
      "batch-1" none none).outcomes.map
        (fun o => (o.index, o.success, o.result.isSome, o.error.isSome)) =
      [(0, true, true, false), (1, false, false, true), (2, true, true, false)] :=
  batch_three_files_middle_empty demoEnv [0] [1] "a.pdf" "b.pdf" "c.pdf" "batch-1"
    none none rfl rfl

/-- Stripping never lengthens a list. -/
theorem pyStrip_length_le (l : List Char) : (pyStrip l).length ≤ l.length := by
  unfold pyStrip
  rw [List.length_reverse]
  refine le_trans (List.dropWhile_sublist isPySpace).length_le ?_
  rw [List.length_reverse]
  exact (List.dropWhile_sublist isPySpace).length_le

/-- Length of a Python slice. -/
theorem pySlice_length (s : List Char) (a b : Nat) :
    (pySlice s a b).length = min b s.length - a := by
  simp [pySlice, List.length_drop, List.length_take]

/-- `pyRfindSpaceAux` returns `-1` or an index below `a + n`. -/
theorem pyRfindSpaceAux_neg_or_lt (s : List Char) (a : Nat) :
    ∀ n, pyRfindSpaceAux s a n = -1 ∨
      ∃ i : Nat, pyRfindSpaceAux s a n = (i : Int) ∧ i < a + n := by
  intro n
  induction n with
  | zero => left; rfl
  | succ m ih =>
    simp only [pyRfindSpaceAux]
    split
    · right; exact ⟨a + m, rfl, by omega⟩
    · rcases ih with h | ⟨i, hi, hlt⟩
      · left; exact h
      · right; exact ⟨i, hi, by omega⟩

/-- The `end` position of a token-chunker iteration never exceeds
`start + chunk_size`. -/
theorem tokenEnd_le (text : List Char) (chunk_size start : Nat) :
    tokenEnd text chunk_size start ≤ start + chunk_size := by
  simp only [tokenEnd]
  split
  · split
    · rename_i h1 h2
      unfold pyRfindSpace at h2 ⊢
      rcases pyRfindSpaceAux_neg_or_lt text start
          (min (start + chunk_size) text.length - start) with h | ⟨i, hi, hlt⟩
      · rw [h] at h2
        omega
      · rw [hi] at h2 ⊢
        rw [Int.toNat_ofNat]
        have hm : min (start + chunk_size) text.length ≤ start + chunk_size :=
          min_le_left _ _
        omega
    · omega
  · omega

/-- Every chunk the token-chunker loop ever emits has non-empty text of
length at most `chunk_size`. -/
theorem chunkAux_text_bounds (text : List Char) (fname : String) (C O : Nat) :
    ∀ fuel start idx c, c ∈ chunkByTokensAux text fname C O fuel start idx →
      c.text ≠ [] ∧ c.text.length ≤ C := by
  intro fuel
  induction fuel with
  | zero => intro start idx c h; simp [chunkByTokensAux] at h
  | succ n ih =>
    intro start idx c h
    simp only [chunkByTokensAux] at h
    by_cases hs : start < text.length
    · rw [if_pos hs] at h
      by_cases he : ((pyStrip (pySlice text start (tokenEnd text C start))).isEmpty = true)
      · rw [if_pos he] at h
        exact ih _ _ c h
      · rw [if_neg he] at h
        rcases List.mem_cons.mp h with rfl | hmem
        · refine ⟨fun hnil => he ?_, ?_⟩
          · exact List.isEmpty_iff.mpr hnil
          · show (pyStrip (pySlice text start (tokenEnd text C start))).length ≤ C
            refine le_trans (pyStrip_length_le _) ?_
            rw [pySlice_length]
            have h1 := tokenEnd_le text C start
            have h2 : min (tokenEnd text C start) text.length ≤ tokenEnd text C start :=
              min_le_left _ _
            omega
        · exact ih _ _ c hmem
    · rw [if_neg hs] at h
      simp at h

/-- The chunk indices the token-chunker loop emits from counter `idx` are
exactly `idx, idx+1, …` in order. -/
theorem chunkAux_indices (text : List Char) (fname : String) (C O : Nat) :
    ∀ fuel start idx,
      (chunkByTokensAux text fname C O fuel start idx).map (fun c => c.chunk_index) =
        List.range' idx (chunkByTokensAux text fname C O fuel start idx).length := by
  intro fuel
  induction fuel with
  | zero => intro start idx; rfl
  | succ n ih =>
    intro start idx
    simp only [chunkByTokensAux]
    by_cases hs : start < text.length
    · rw [if_pos hs]
      by_cases he : ((pyStrip (pySlice text start (tokenEnd text C start))).isEmpty = true)
      · rw [if_pos he]
        exact ih _ _
      · rw [if_neg he]
        simp only [List.map_cons, List.length_cons]
        rw [ih _ (idx + 1), List.range'_succ]
    · rw [if_neg hs]
      rfl

/-- Claim C10: for every input and every configuration with
`chunk_overlap < chunk_size`, every chunk `_chunk_by_tokens` emits (within
any amount of fuel) has non-empty stripped text of length at most
`chunk_size`, and the emitted `chunk_index` values are exactly
`0, 1, …, n-1` in emission order. -/
theorem token_chunks_invariant (markdown : List Char) (filename : String)
    (chunk_size chunk_overlap fuel : Nat) (h : chunk_overlap < chunk_size)
    (cs : List TokenChunk)
    (hcs : chunk_by_tokens markdown chunk_size chunk_overlap filename fuel = .ok cs) :
    (∀ c ∈ cs, c.text ≠ [] ∧ c.text.length ≤ chunk_size) ∧
    cs.map (fun c => c.chunk_index) = List.range cs.length := by
  unfold chunk_by_tokens at hcs
  rw [if_neg (by omega)] at hcs
  have hcs2 : cs = chunkByTokensAux (pyStrip markdown) filename chunk_size
      chunk_overlap fuel 0 0 := by
    injection hcs with h2
    exact h2.symm
  subst hcs2
  constructor
  · intro c hc
    exact chunkAux_text_bounds _ _ _ _ _ _ _ c hc
  · rw [List.range_eq_range' _]
    exact chunkAux_indices _ _ _ _ fuel 0 0

/-- Witness for C10 on the 2-character text `hi` with `chunk_size = 5`,
`chunk_overlap = 1`. -/
theorem token_chunks_invariant_witness :
    (∀ c ∈ [cHi], c.text ≠ [] ∧ c.text.length ≤ 5) ∧
    [cHi].map (fun c => c.chunk_index) = List.range [cHi].length :=
  token_chunks_invariant ['h', 'i'] "a.pdf" 5 1 2 (by norm_num) [cHi] rfl

end Extralit
